import Mathlib

/-!
Shallow embedding of the crop module (src/crop.c) of the motion-crop
repository: the static `crop` row-copy routine, `crop_init`, and
`crop_map`, together with the data model (`struct context` fields the
module reads and writes).  Byte buffers are modelled as `List Nat`,
NULL pointers as `none`, C `int` values as `Int` with C truncating
division written `Int.tdiv`, and the unbounded C loops of `crop` with a
fuel parameter: a `none` result means the loop did not terminate (or a
NULL buffer was dereferenced), `some` is normal completion.
-/

/-- The four crop_* options of `struct config` read by crop.c. -/
structure Conf where
  crop_left : Int
  crop_right : Int
  crop_top : Int
  crop_bottom : Int
deriving DecidableEq

/-- The externally visible frame dimensions (`cnt->imgs`) that crop.c updates. -/
structure Imgs where
  width : Int
  height : Int
  width_high : Int
  height_high : Int
deriving DecidableEq

/-- `cnt->crop_data`: the margin copy, recorded capture dimensions and staging buffers. -/
structure CropData where
  px_left : Int
  px_right : Int
  px_top : Int
  px_bottom : Int
  capture_width_norm : Int
  capture_height_norm : Int
  capture_width_high : Int
  capture_height_high : Int
  buffer_norm : Option (List Nat)
  buffer_high : Option (List Nat)
deriving DecidableEq

/-- The fields of `cnt->rotate_data` that crop.c reads (degrees, capture
dimensions) and writes (buffer_high, at src/crop.c line 200). -/
structure RotateData where
  degrees : Int
  capture_width_norm : Int
  capture_height_norm : Int
  capture_width_high : Int
  capture_height_high : Int
  buffer_high : Option (List Nat)
deriving DecidableEq

/-- The slice of `struct context` used by crop.c. -/
structure Context where
  conf : Conf
  imgs : Imgs
  crop_data : CropData
  rotate_data : RotateData
deriving DecidableEq

/-- `struct image_data`: the per-frame buffers crop_map rewrites. -/
structure ImageData where
  image_norm : List Nat
  image_high : List Nat
deriving DecidableEq

/-- Warnings emitted through MOTION_LOG, identified by which configuration
problem was reported. -/
inductive Warn where
  | negLeft
  | negRight
  | negTop
  | negBottom
  | overWidth
  | overHeight
deriving DecidableEq

/-- `mymalloc`: allocation always succeeds; the fresh block's bytes are
modelled as zeros (C leaves them indeterminate). -/
def mymalloc (n : Int) : List Nat :=
  List.replicate n.toNat 0

/-- Read the byte at (possibly out-of-range) offset `i`; out-of-range reads
are undefined behaviour in C and modelled as 0. -/
def readByte (src : List Nat) (i : Int) : Nat :=
  if 0 ≤ i then src.getD i.toNat 0 else 0

/-- Overwrite `buf` starting at offset `off` with `data` (clipped to the end
of `buf`), leaving all other bytes unchanged. -/
def writeAt (buf : List Nat) (off : Nat) (data : List Nat) : List Nat :=
  buf.take off ++ data.take (buf.length - off) ++ buf.drop (off + data.length)

/-- The inner loop of `crop` (src/crop.c line 52):
`for (base = base + left; base < base + left - right; base++) *dst++ = *base;`.
The guard compares `base` with `base + left - right`, so it is equivalent to
`0 < left - right` and does not depend on the loop variable.  The function
is entered at the value `base + left` (the loop initialiser is applied by
the caller) and returns the final value of `base` together with the bytes
written to `dst`, or `none` when the fuel runs out (the loop here never
exits once entered with `right < left`). -/
def cropInner (src : List Nat) (left right : Int) : Nat → Int → Option (Int × List Nat)
  | 0, _ => none
  | fuel+1, base =>
    if base < base + left - right then
      match cropInner src left right fuel (base + 1) with
      | some (b, out) => some (b, readByte src base :: out)
      | none => none
    else
      some (base, [])

/-- The outer loop of `crop` (src/crop.c line 51):
`for (base = src + width_src*top; base < src_endp; base += right)` whose body
is the inner loop; `base` is an offset from `src`. -/
def cropOuter (src : List Nat) (size_src left right : Int) : Nat → Int → Option (List Nat)
  | 0, _ => none
  | fuel+1, base =>
    if base < size_src then
      match cropInner src left right (fuel+1) (base + left) with
      | some (b, out) =>
        match cropOuter src size_src left right fuel (b + right) with
        | some rest => some (out ++ rest)
        | none => none
      | none => none
    else
      some []

/-- The static `crop` function (src/crop.c lines 39-57).  `dst` is modelled
as the returned list of bytes written through it, in order.  As in the
source, `size_dst` and `bottom` are accepted but never used, and `width_src`
only enters through the initial offset `width_src * top`. -/
def crop (src : List Nat) (size_src size_dst width_src left right top bottom : Int)
    (fuel : Nat) : Option (List Nat) :=
  cropOuter src size_src left right fuel (width_src * top)

/-- `widthc = width - left - right` (src/crop.c line 286). -/
def crop_widthc (width left right : Int) : Int :=
  width - left - right

/-- `heightc = height - left - right` (src/crop.c line 287): the source
subtracts the left and right margins from the height. -/
def crop_heightc (height left right : Int) : Int :=
  height - left - right

/-- One iteration of the `while (indx <= indx_max)` loop of `crop_map`
(src/crop.c lines 267-313) for one frame variant: the geometry
pre-calculations, the three `crop` calls for the Y, U and V planes, and the
final `memcpy(img, temp_buff, sizec)`.  Returns the updated frame bytes and
the updated staging-buffer contents, or `none` when a `crop` call does not
terminate or the staging buffer is NULL. -/
def cropMapIter (left right top bottom : Int) (img : List Nat)
    (temp_buff : Option (List Nat)) (width height : Int) (fuel : Nat) :
    Option (List Nat × List Nat) :=
  match temp_buff with
  | none => none
  | some buf =>
    let widthc := crop_widthc width left right
    let heightc := crop_heightc height left right
    let wh := width * height
    let whc := widthc * heightc
    let sizec := Int.tdiv (whc * 3) 2
    let wh4 := Int.tdiv wh 4
    let wh4c := Int.tdiv whc 4
    match crop img wh whc width left right top bottom fuel with
    | none => none
    | some out0 =>
      match crop (img.drop wh.toNat) wh4 wh4c width left right top bottom fuel with
      | none => none
      | some out1 =>
        match crop (img.drop (wh + wh4).toNat) wh4 wh4c width left right top bottom fuel with
        | none => none
        | some out2 =>
          let buf1 := writeAt buf 0 out0
          let buf2 := writeAt buf1 whc.toNat out1
          let buf3 := writeAt buf2 (whc + wh4c).toNat out2
          let img1 := writeAt img 0 (buf3.take sizec.toNat)
          some (img1, buf3)

/-- `crop_map` (src/crop.c lines 239-316), written over the `crop_data`
slice it actually reads and writes: it never touches `conf`, `imgs` or
`rotate_data`.  Returns the updated image, the updated `crop_data` (its
staging buffers may have been rewritten) and the C return value. -/
def crop_map_cd (cd : CropData) (imgd : ImageData) (fuel : Nat) :
    Option (ImageData × CropData × Int) :=
  if cd.px_left = 0 ∧ cd.px_right = 0 ∧ cd.px_top = 0 ∧ cd.px_bottom = 0 then
    some (imgd, cd, 0)
  else
    match cropMapIter cd.px_left cd.px_right cd.px_top cd.px_bottom
        imgd.image_norm cd.buffer_norm cd.capture_width_norm cd.capture_height_norm fuel with
    | none => none
    | some (img0, buf0) =>
      if cd.capture_width_high ≠ 0 ∧ cd.capture_height_high ≠ 0 then
        match cropMapIter cd.px_left cd.px_right cd.px_top cd.px_bottom
            imgd.image_high cd.buffer_high cd.capture_width_high cd.capture_height_high fuel with
        | none => none
        | some (img1, buf1) =>
          some ({ image_norm := img0, image_high := img1 },
                { cd with buffer_norm := some buf0, buffer_high := some buf1 }, 0)
      else
        some ({ imgd with image_norm := img0 },
              { cd with buffer_norm := some buf0 }, 0)

/-- `crop_map` on the full context. -/
def crop_map (cnt : Context) (imgd : ImageData) (fuel : Nat) :
    Option (ImageData × CropData × Int) :=
  crop_map_cd cnt.crop_data imgd fuel

/-- `crop_init` (src/crop.c lines 69-202).  Returns the updated context and
the warnings reported.  Field-faithful points: a negative `crop_right`
zeroes `px_left`, not `px_right` (line 95), which is therefore kept from the
previous `crop_data`; the 90/270 swap happens before the all-margins-zero
early return; the high staging buffer is stored into
`rotate_data.buffer_high` (line 200), not `crop_data.buffer_high`. -/
def crop_init (cnt : Context) : Context × List Warn :=
  let c := cnt.conf
  let cl := if c.crop_left < 0 then 0 else c.crop_left
  let cr := if c.crop_right < 0 then 0 else c.crop_right
  let ct := if c.crop_top < 0 then 0 else c.crop_top
  let cb := if c.crop_bottom < 0 then 0 else c.crop_bottom
  let pxl0 : Int := if c.crop_left < 0 then 0 else c.crop_left
  let pxl : Int := if c.crop_right < 0 then 0 else pxl0
  let pxr : Int := if c.crop_right < 0 then cnt.crop_data.px_right else c.crop_right
  let pxt : Int := if c.crop_top < 0 then 0 else c.crop_top
  let pxb : Int := if c.crop_bottom < 0 then 0 else c.crop_bottom
  let warns : List Warn :=
    (if c.crop_left < 0 then [Warn.negLeft] else []) ++
    (if c.crop_right < 0 then [Warn.negRight] else []) ++
    (if c.crop_top < 0 then [Warn.negTop] else []) ++
    (if c.crop_bottom < 0 then [Warn.negBottom] else []) ++
    (if cl + cr > cnt.imgs.width then [Warn.overWidth] else []) ++
    (if ct + cb > cnt.imgs.height then [Warn.overHeight] else [])
  let conf1 : Conf := { crop_left := cl, crop_right := cr, crop_top := ct, crop_bottom := cb }
  let size_high0 := Int.tdiv (cnt.imgs.width_high * cnt.imgs.height_high * 3) 2
  let imgs1 : Imgs :=
    if cnt.rotate_data.degrees = 90 ∨ cnt.rotate_data.degrees = 270 then
      { width := cnt.rotate_data.capture_height_norm
        height := cnt.rotate_data.capture_width_norm
        width_high := if size_high0 > 0 then cnt.rotate_data.capture_height_high
                      else cnt.imgs.width_high
        height_high := if size_high0 > 0 then cnt.rotate_data.capture_width_high
                       else cnt.imgs.height_high }
    else cnt.imgs
  let cd1 : CropData :=
    { px_left := pxl
      px_right := pxr
      px_top := pxt
      px_bottom := pxb
      capture_width_norm := cnt.imgs.width
      capture_height_norm := cnt.imgs.height
      capture_width_high := cnt.imgs.width_high
      capture_height_high := cnt.imgs.height_high
      buffer_norm := none
      buffer_high := none }
  if pxl = 0 ∧ pxr = 0 ∧ pxt = 0 ∧ pxb = 0 then
    ({ cnt with conf := conf1, imgs := imgs1, crop_data := cd1 }, warns)
  else
    let imgs2 : Imgs :=
      { width := imgs1.width - pxl - pxr
        width_high := imgs1.width_high - pxl - pxr
        height := imgs1.height - pxt - pxb
        height_high := imgs1.height_high - pxt - pxb }
    let size_norm2 := Int.tdiv (imgs2.width * imgs2.height * 3) 2
    let size_high2 := Int.tdiv (imgs2.width_high * imgs2.height_high * 3) 2
    let cd2 : CropData := { cd1 with buffer_norm := some (mymalloc size_norm2) }
    let rd1 : RotateData :=
      if size_high2 > 0 then { cnt.rotate_data with buffer_high := some (mymalloc size_high2) }
      else cnt.rotate_data
    ({ cnt with conf := conf1, imgs := imgs2, crop_data := cd2, rotate_data := rd1 }, warns)

/-- Specification-side plane crop, written from the spec text: walk the
source rows, skip the first `top` rows and the last `bottom` rows, and
within each retained row keep the bytes after the first `left` and before
the last `right`, concatenated contiguously. -/
def cropFrameSpec (src : List Nat) (width height left right top bottom : Int) : List Nat :=
  ((List.range (height - top - bottom).toNat).map (fun i =>
    (src.drop ((top + (i : Int)) * width + left).toNat).take (width - left - right).toNat)).flatten

/-- A base context with all fields zeroed, used to build concrete examples. -/
def baseCtx : Context :=
  { conf := { crop_left := 0, crop_right := 0, crop_top := 0, crop_bottom := 0 }
    imgs := { width := 0, height := 0, width_high := 0, height_high := 0 }
    crop_data := { px_left := 0, px_right := 0, px_top := 0, px_bottom := 0
                   capture_width_norm := 0, capture_height_norm := 0
                   capture_width_high := 0, capture_height_high := 0
                   buffer_norm := none, buffer_high := none }
    rotate_data := { degrees := 0, capture_width_norm := 0, capture_height_norm := 0
                     capture_width_high := 0, capture_height_high := 0, buffer_high := none } }

/-- The inner loop of `crop` never terminates when `right < left`: its guard
`base < base + left - right` then holds for every value of `base`. -/
theorem cropInner_div (src : List Nat) (left right : Int) (h : right < left) :
    ∀ fuel base, cropInner src left right fuel base = none := by
  intro fuel
  induction fuel with
  | zero => intro base; rfl
  | succ f ih =>
    intro base
    unfold cropInner
    rw [if_pos (by omega : base < base + left - right), ih (base + 1)]

/-- When `right < left` and the outer loop is entered (`base < size_src`),
`crop`'s loops never terminate. -/
theorem cropOuter_div (src : List Nat) (size_src left right : Int) (h : right < left) :
    ∀ fuel base, base < size_src → cropOuter src size_src left right fuel base = none := by
  intro fuel
  cases fuel with
  | zero => intro base hb; rfl
  | succ f =>
    intro base hb
    unfold cropOuter
    rw [if_pos hb, cropInner_div src left right h]

/-- C7 (confirmed): when all four effective margins recorded in `crop_data`
are zero, `crop_map` returns the success code 0 immediately and leaves the
frame buffers and its `crop_data` (and with them every reported dimension,
which `crop_map` never writes) completely unchanged. -/
theorem crop_map_all_zero_noop (cnt : Context) (imgd : ImageData) (fuel : Nat)
    (h : cnt.crop_data.px_left = 0 ∧ cnt.crop_data.px_right = 0 ∧
         cnt.crop_data.px_top = 0 ∧ cnt.crop_data.px_bottom = 0) :
    crop_map cnt imgd fuel = some (imgd, cnt.crop_data, 0) := by
  unfold crop_map crop_map_cd
  rw [if_pos h]

/-- Witness for C7 at a concrete context and frame. -/
theorem crop_map_all_zero_noop_witness :
    crop_map baseCtx { image_norm := [1, 2, 3], image_high := [] } 5 =
      some ({ image_norm := [1, 2, 3], image_high := [] }, baseCtx.crop_data, 0) :=
  crop_map_all_zero_noop baseCtx { image_norm := [1, 2, 3], image_high := [] } 5
    (by decide)

/-- C9 (confirmed): the margins used by `crop_map` are the defensive copy in
`crop_data`; replacing the current user configuration `conf` (in particular
its crop_left/right/top/bottom) by any other value does not change the
result of `crop_map` at all, so mutating the configuration after
`crop_init` cannot affect crop behaviour until re-initialization. -/
theorem crop_map_conf_frozen (cnt : Context) (c2 : Conf) (imgd : ImageData) (fuel : Nat) :
    crop_map { cnt with conf := c2 } imgd fuel = crop_map cnt imgd fuel := rfl

/-- A context with both variants present and all margins 1: normal source
8x8, high source 6x6, no rotation. -/
def exHighCtx : Context :=
  { baseCtx with
    conf := { crop_left := 1, crop_right := 1, crop_top := 1, crop_bottom := 1 }
    imgs := { width := 8, height := 8, width_high := 6, height_high := 6 } }

/-- A frame for `exHighCtx` (96 normal bytes, 54 high bytes). -/
def exHighImg : ImageData :=
  { image_norm := List.replicate 96 7, image_high := List.replicate 54 9 }

set_option maxHeartbeats 2000000 in
/-- C10 (confirmed): `crop_init` always leaves `crop_data.buffer_high` NULL
(the high-resolution staging buffer is stored into `rotate_data.buffer_high`
instead, src/crop.c line 200); consequently on a context with the High
variant present and cropping enabled, `crop_map` picks `crop_data.buffer_high`
as the high destination and hits the NULL buffer (modelled as `none`). -/
theorem crop_init_buffer_high_none :
    (∀ cnt : Context, ((crop_init cnt).1).crop_data.buffer_high = none) ∧
    ((crop_init exHighCtx).1).rotate_data.buffer_high = some (mymalloc 24) ∧
    ((crop_init exHighCtx).1).crop_data.capture_width_high = 6 ∧
    crop_map (crop_init exHighCtx).1 exHighImg 64 = none := by
  refine ⟨fun cnt => ?_, by decide, by decide, by decide⟩
  unfold crop_init
  dsimp only
  split_ifs <;> rfl

/-- A 100x80 normal-only source with margins (10,10,5,5): the spec's worked
example. -/
def exCropCtx : Context :=
  { baseCtx with
    conf := { crop_left := 10, crop_right := 10, crop_top := 5, crop_bottom := 5 }
    imgs := { width := 100, height := 80, width_high := 0, height_high := 0 } }

/-- The Y plane of a 4x4 test frame, bytes 10..25. -/
def exYPlane : List Nat := (List.range 16).map (fun i => 10 + i)

/-- A 4x4 normal-only source with margins (1,1,1,1). -/
def exSmallCtx : Context :=
  { baseCtx with
    conf := { crop_left := 1, crop_right := 1, crop_top := 1, crop_bottom := 1 }
    imgs := { width := 4, height := 4, width_high := 0, height_high := 0 } }

/-- A full 4x4 4:2:0 frame (24 bytes, values 10..33) for `exSmallCtx`. -/
def exSmallImg : ImageData :=
  { image_norm := (List.range 24).map (fun i => 10 + i), image_high := [] }

/-- C1 (code_bug): the `crop` routine copies nothing at all.  With margins
(1,1,1,1) on a 4x4 plane its inner loop guard `base < base + left - right`
is false at entry, so zero bytes are written (`some []`), while the
spec-side crop of the same plane retains the 2x2 middle span [15,16,19,20];
after `crop_map`, the frame's leading `sizec` bytes are therefore the
untouched staging buffer contents (zeros from allocation), not cropped
pixels. -/
theorem crop_copies_nothing :
    crop exYPlane 16 4 4 1 1 1 1 32 = some [] ∧
    cropFrameSpec exYPlane 4 4 1 1 1 1 = [15, 16, 19, 20] ∧
    (crop_map ((crop_init exSmallCtx).1) exSmallImg 32).map (fun r => r.1.image_norm) =
      some (List.replicate 6 0 ++ exSmallImg.image_norm.drop 6) := by decide

/-- C2 (code_bug): `crop_init` does set the output dimensions of the
100x80/(10,10,5,5) example to 80x70 and allocates 8400 staging bytes, but
`crop_map` computes `heightc = height - left - right` (src/crop.c line 287),
giving 60 instead of 70, so the per-frame output byte count `sizec` is 7200,
not the claimed 80*70*3/2 = 8400. -/
theorem crop_map_heightc_bug :
    ((crop_init exCropCtx).1).imgs.width = 80 ∧
    ((crop_init exCropCtx).1).imgs.height = 70 ∧
    ((crop_init exCropCtx).1).crop_data.buffer_norm = some (mymalloc 8400) ∧
    ((crop_init exCropCtx).1).crop_data.capture_height_norm = 80 ∧
    crop_heightc 80 10 10 = 60 ∧
    Int.tdiv (crop_widthc 100 10 10 * crop_heightc 80 10 10 * 3) 2 = 7200 ∧
    (7200 : Int) ≠ Int.tdiv (80 * 70 * 3) 2 := by
  refine ⟨by decide, by decide, rfl, by decide, by decide, by decide, by decide⟩

/-- A 4x4 normal-only source with margins (2,1,0,0): px_left greater than
px_right after a successful initialization. -/
def exDivCtx : Context :=
  { baseCtx with
    conf := { crop_left := 2, crop_right := 1, crop_top := 0, crop_bottom := 0 }
    imgs := { width := 4, height := 4, width_high := 0, height_high := 0 } }

/-- A 24-byte frame for `exDivCtx`. -/
def exDivImg : ImageData :=
  { image_norm := List.replicate 24 5, image_high := [] }

/-- C3 (code_bug): after a successful initialization with margins (2,1,0,0)
the per-frame crop never returns at all: because px_left > px_right the
inner loop of `crop` runs forever, so `crop_map` yields `none` for every
fuel bound instead of terminating with the success indicator 0. -/
theorem crop_map_nonterminating :
    ∀ fuel : Nat, crop_map ((crop_init exDivCtx).1) exDivImg fuel = none := by
  intro fuel
  have hcd : ((crop_init exDivCtx).1).crop_data =
      { px_left := 2, px_right := 1, px_top := 0, px_bottom := 0
        capture_width_norm := 4, capture_height_norm := 4
        capture_width_high := 0, capture_height_high := 0
        buffer_norm := some (mymalloc 6), buffer_high := none } := by decide
  have hdiv : ∀ f : Nat,
      cropOuter exDivImg.image_norm ((4 : Int) * 4) 2 1 f ((4 : Int) * 0) = none :=
    fun f => cropOuter_div _ _ _ _ (by norm_num) f _ (by norm_num)
  unfold crop_map
  rw [hcd]
  unfold crop_map_cd
  rw [if_neg (by decide)]
  unfold cropMapIter crop
  dsimp only
  rw [hdiv fuel]

/-- An 8x8 normal-only source whose configuration has crop_left = 3 and a
negative crop_right = -5, with a stale value 7 left in `crop_data.px_right`
from before the call. -/
def exNegRightCtx : Context :=
  { baseCtx with
    conf := { crop_left := 3, crop_right := -5, crop_top := 0, crop_bottom := 0 }
    imgs := { width := 8, height := 8, width_high := 0, height_high := 0 }
    crop_data := { baseCtx.crop_data with px_right := 7 } }

/-- C4 (code_bug): a negative `crop_right` does warn, but the correction
zeroes `px_left` instead of `px_right` (src/crop.c line 95): the left
margin, configured to the valid value 3, is destroyed, while the right
margin keeps whatever value `px_right` previously held (here 7). -/
theorem crop_init_neg_right_clobbers_left :
    exNegRightCtx.conf.crop_left = 3 ∧
    ((crop_init exNegRightCtx).1).crop_data.px_left = 0 ∧
    ((crop_init exNegRightCtx).1).crop_data.px_right = 7 ∧
    (crop_init exNegRightCtx).2 = [Warn.negRight] := by decide

/-- C5 (code_bug): with the High variant absent (0x0 dimensions) and margins
(10,10,5,5), `crop_init` still subtracts the margins from the zero high
dimensions, getting -20 x -10, whose product makes `size_high` = 300 > 0, so
a 300-byte high staging buffer is allocated even though the variant is
absent (and stored in `rotate_data.buffer_high`). -/
theorem crop_init_absent_high_alloc :
    exCropCtx.imgs.width_high = 0 ∧
    exCropCtx.imgs.height_high = 0 ∧
    ((crop_init exCropCtx).1).imgs.width_high = -20 ∧
    ((crop_init exCropCtx).1).imgs.height_high = -10 ∧
    ((crop_init exCropCtx).1).rotate_data.buffer_high = some (mymalloc 300) := by
  refine ⟨by decide, by decide, by decide, by decide, rfl⟩

/-- The U plane of an 8x8 test frame: 16 bytes, values 30..45, logically a
4x4 half-resolution plane. -/
def exUPlane : List Nat := (List.range 16).map (fun i => 30 + i)

/-- C6 (code_bug): for an 8x8 frame with margins (1,1,0,0) the U-plane call
made by `crop_map` is `crop(img+wh, dst, 16, 9, 8, 1, 1, 0, 0)`: it receives
the full-resolution width 8 as the stride, not the chroma plane's own halved
row width 4 (the halved parameters are commented out in the source), and it
copies zero bytes, whereas cropping the 4x4 chroma plane with the unscaled
margins as the claim describes would retain [31,32,35,36,39,40,43,44]
(2 of every 4 chroma bytes per row versus 6 of every 8 luma bytes). -/
theorem crop_chroma_full_width_no_copy :
    crop exUPlane 16 9 8 1 1 0 0 32 = some [] ∧
    cropFrameSpec exUPlane 4 4 1 1 0 0 = [31, 32, 35, 36, 39, 40, 43, 44] ∧
    crop_widthc 4 1 1 * 8 < crop_widthc 8 1 1 * 4 := by decide

/-- A context whose margins all resolve to zero but whose rotation is 90
degrees, with rotate_data capture dimensions differing from imgs. -/
def exSwapCtx : Context :=
  { baseCtx with
    imgs := { width := 100, height := 80, width_high := 0, height_high := 0 }
    rotate_data := { baseCtx.rotate_data with
      degrees := 90, capture_width_norm := 80, capture_height_norm := 50 } }

/-- Counterexample to C8 as stated: on `exSwapCtx` all four margins resolve
to zero and no staging buffer is allocated, yet `crop_init` still rewrites
`imgs.width` (from 100 to `rotate_data.capture_height_norm` = 50) before the
all-zero early return, because the 90/270 dimension swap (src/crop.c lines
155-163) runs first. -/
theorem crop_init_zero_margins_swap_cex :
    (((crop_init exSwapCtx).1).crop_data.px_left = 0 ∧
     ((crop_init exSwapCtx).1).crop_data.px_right = 0 ∧
     ((crop_init exSwapCtx).1).crop_data.px_top = 0 ∧
     ((crop_init exSwapCtx).1).crop_data.px_bottom = 0) ∧
    ((crop_init exSwapCtx).1).crop_data.buffer_norm = none ∧
    ((crop_init exSwapCtx).1).crop_data.buffer_high = none ∧
    exSwapCtx.imgs.width = 100 ∧
    ((crop_init exSwapCtx).1).imgs.width = 50 := by decide

/-- C8 as amended: when all four margins resolve to zero, `crop_init`
records cropping disabled and allocates no staging buffer, and - provided
the configured rotation is not 90 or 270 degrees - leaves the output frame
dimensions of both variants untouched. -/
theorem crop_init_zero_margins_noop (cnt : Context)
    (h90 : cnt.rotate_data.degrees ≠ 90) (h270 : cnt.rotate_data.degrees ≠ 270)
    (hpx : ((crop_init cnt).1).crop_data.px_left = 0 ∧
           ((crop_init cnt).1).crop_data.px_right = 0 ∧
           ((crop_init cnt).1).crop_data.px_top = 0 ∧
           ((crop_init cnt).1).crop_data.px_bottom = 0) :
    ((crop_init cnt).1).imgs = cnt.imgs ∧
    ((crop_init cnt).1).crop_data.buffer_norm = none ∧
    ((crop_init cnt).1).crop_data.buffer_high = none ∧
    ((crop_init cnt).1).rotate_data = cnt.rotate_data := by
  have hdeg : ¬(cnt.rotate_data.degrees = 90 ∨ cnt.rotate_data.degrees = 270) := by omega
  unfold crop_init at hpx ⊢
  dsimp only at hpx ⊢
  rw [if_neg hdeg] at hpx ⊢
  by_cases hz : ((if cnt.conf.crop_right < 0 then 0
        else if cnt.conf.crop_left < 0 then 0 else cnt.conf.crop_left) = 0 ∧
      (if cnt.conf.crop_right < 0 then cnt.crop_data.px_right
        else cnt.conf.crop_right) = 0 ∧
      (if cnt.conf.crop_top < 0 then 0 else cnt.conf.crop_top) = 0 ∧
      (if cnt.conf.crop_bottom < 0 then 0 else cnt.conf.crop_bottom) = 0)
  · rw [if_pos hz]
    exact ⟨rfl, rfl, rfl, rfl⟩
  · rw [if_neg hz] at hpx
    exact absurd hpx hz

/-- A non-rotated context with a negative crop_top and all other margins
zero: every margin resolves to zero. -/
def exZeroCtx : Context :=
  { baseCtx with
    conf := { crop_left := 0, crop_right := 0, crop_top := -3, crop_bottom := 0 }
    imgs := { width := 100, height := 80, width_high := 0, height_high := 0 } }

/-- Witness for the amended C8 at a concrete context. -/
theorem crop_init_zero_margins_noop_witness :
    ((crop_init exZeroCtx).1).imgs = exZeroCtx.imgs ∧
    ((crop_init exZeroCtx).1).crop_data.buffer_norm = none ∧
    ((crop_init exZeroCtx).1).crop_data.buffer_high = none ∧
    ((crop_init exZeroCtx).1).rotate_data = exZeroCtx.rotate_data :=
  crop_init_zero_margins_noop exZeroCtx (by decide) (by decide) (by decide)
